import Mathlib

/-!
Verification development for the persistent data model of the
foodgram recipe-sharing application (src/backend/recipes/models.py).

The source is a declarative Django model file.  We embed it shallowly:
each model class becomes a row structure, the database becomes lists of
rows, each declared validator and constraint becomes the check the
framework derives from the declaration, and row creation becomes a
function that runs the data-entry validation and the database write
checks (unique constraints declared in a class Meta, primary-key
uniqueness, column type bounds) and inserts the row on success.
Constraints declared OUTSIDE a class Meta (as in ShoppingCart and
RecipeTag in the source) are not applied by the framework, so the
corresponding create functions perform no pair-uniqueness check.
-/

/-- MinValueValidator(limit): value passes iff limit ≤ value. -/
def minValueValidator (limit v : Int) : Bool := limit ≤ v

/-- MaxValueValidator(limit): value passes iff value ≤ limit. -/
def maxValueValidator (limit v : Int) : Bool := v ≤ limit

/-- MaxLengthValidator(limit): string passes iff its length is at most limit. -/
def maxLengthValidator (limit : Nat) (s : String) : Bool := s.length ≤ limit

/-- Character class [a-fA-F0-9] of the color RegexValidator. -/
def isHexChar (c : Char) : Bool :=
  (decide ('a' ≤ c) && decide (c ≤ 'f')) ||
  (decide ('A' ≤ c) && decide (c ≤ 'F')) ||
  (decide ('0' ≤ c) && decide (c ≤ '9'))

/-- Matcher for the anchored pattern of
    RegexValidator(regex='^#[a-fA-F0-9]{6}$') on Tag.color. -/
def regexHexColor (s : String) : Bool :=
  match s.data with
  | '#' :: rest => rest.length == 6 && rest.all isHexChar
  | _ => false

/-- Character class [-a-zA-Z0-9_] used by the implicit slug validator of
    SlugField. -/
def isSlugChar (c : Char) : Bool :=
  c == '-' || c == '_' ||
  (decide ('a' ≤ c) && decide (c ≤ 'z')) ||
  (decide ('A' ≤ c) && decide (c ≤ 'Z')) ||
  (decide ('0' ≤ c) && decide (c ≤ '9'))

/-- Matcher for the anchored slug pattern (one or more slug characters). -/
def regexSlug (s : String) : Bool :=
  !s.data.isEmpty && s.data.all isSlugChar

/-- Column check a PositiveSmallIntegerField imposes at the storage
    level: a non-negative integer fitting a 16-bit signed column,
    i.e. 0 ≤ v ≤ 32767, independently of any declared validators. -/
def positiveSmallIntegerFieldOk (v : Int) : Bool := 0 ≤ v && v ≤ 32767

/-- Row of the Recipe model: author FK, name (CharField max_length=200),
    image (ImageField), text (TextField with MaxLengthValidator(1000)),
    cooking_time (PositiveSmallIntegerField with MinValueValidator(1) and
    MaxValueValidator(600)).  The many-to-many fields ingredients and
    tags live in the through tables RecipeIngredient and RecipeTag. -/
structure RecipeRow where
  id : Nat
  author : Nat
  name : String
  image : String
  text : String
  cooking_time : Int
deriving Repr, DecidableEq

/-- Row of the Tag model: name, color and slug, each declared unique. -/
structure TagRow where
  id : Nat
  name : String
  color : String
  slug : String
deriving Repr, DecidableEq

/-- Row of the Ingredient model: name and measurement_unit. -/
structure IngredientRow where
  id : Nat
  name : String
  measurement_unit : String
deriving Repr, DecidableEq

/-- Row of the RecipeIngredient through model: recipe FK, ingredient FK,
    amount (PositiveSmallIntegerField with validators 1..1000). -/
structure RecipeIngredientRow where
  id : Nat
  recipe : Nat
  ingredient : Nat
  amount : Int
deriving Repr, DecidableEq

/-- Row of the RecipeTag through model: recipe FK and tag FK. -/
structure RecipeTagRow where
  id : Nat
  recipe : Nat
  tag : Nat
deriving Repr, DecidableEq

/-- Row of the Favorite model: user FK and recipe FK. -/
structure FavoriteRow where
  id : Nat
  user : Nat
  recipe : Nat
deriving Repr, DecidableEq

/-- Row of the ShoppingCart model: user FK and recipe FK. -/
structure ShoppingCartRow where
  id : Nat
  user : Nat
  recipe : Nat
deriving Repr, DecidableEq

/-- Database state: one list of rows per model of the source file. -/
structure DB where
  recipes : List RecipeRow
  tags : List TagRow
  ingredients : List IngredientRow
  recipeIngredients : List RecipeIngredientRow
  recipeTags : List RecipeTagRow
  favorites : List FavoriteRow
  shoppingCarts : List ShoppingCartRow
deriving Repr, DecidableEq

/-- Empty database. -/
def emptyDB : DB := ⟨[], [], [], [], [], [], []⟩

/-- Validation of the declared Recipe field validators at the data-entry
    boundary: name within CharField max_length=200, text within
    MaxLengthValidator(1000), cooking_time within MinValueValidator(1)
    and MaxValueValidator(600), image path within the default ImageField
    max_length=100. -/
def recipeFieldsValid (r : RecipeRow) : Bool :=
  r.name.length ≤ 200 &&
  r.image.length ≤ 100 &&
  maxLengthValidator 1000 r.text &&
  minValueValidator 1 r.cooking_time &&
  maxValueValidator 600 r.cooking_time

/-- Creation of a Recipe row: field validation, then the database write
    with the primary-key and column checks.  Recipe.Meta declares no
    uniqueness constraints. -/
def createRecipe (db : DB) (r : RecipeRow) : Option DB :=
  if recipeFieldsValid r &&
      positiveSmallIntegerFieldOk r.cooking_time &&
      db.recipes.all (fun x => x.id != r.id) then
    some { db with recipes := r :: db.recipes }
  else none

/-- Validation of the declared Tag field validators: name within
    max_length=200, color within max_length=7 and matching the hex
    RegexValidator, slug within max_length=200 and matching the slug
    pattern of SlugField. -/
def tagFieldsValid (t : TagRow) : Bool :=
  t.name.length ≤ 200 &&
  t.color.length ≤ 7 && regexHexColor t.color &&
  t.slug.length ≤ 200 && regexSlug t.slug

/-- Creation of a Tag row: field validation, then the database write.
    name, color and slug are each declared unique=True, so the write is
    rejected when any existing row repeats one of the three values. -/
def createTag (db : DB) (t : TagRow) : Option DB :=
  if tagFieldsValid t &&
      db.tags.all (fun x =>
        x.id != t.id && x.name != t.name && x.color != t.color &&
        x.slug != t.slug) then
    some { db with tags := t :: db.tags }
  else none

/-- Creation of an Ingredient row: both CharFields have max_length=200
    and the model declares no uniqueness constraints. -/
def createIngredient (db : DB) (i : IngredientRow) : Option DB :=
  if i.name.length ≤ 200 && i.measurement_unit.length ≤ 200 &&
      db.ingredients.all (fun x => x.id != i.id) then
    some { db with ingredients := i :: db.ingredients }
  else none

/-- Validation of the declared RecipeIngredient amount validators,
    MinValueValidator(1) and MaxValueValidator(1000). -/
def recipeIngredientFieldsValid (ri : RecipeIngredientRow) : Bool :=
  minValueValidator 1 ri.amount && maxValueValidator 1000 ri.amount

/-- Creation of a RecipeIngredient row.  RecipeIngredient.Meta declares
    UniqueConstraint(fields=('recipe', 'ingredient')), so the write is
    rejected when the (recipe, ingredient) pair already occurs. -/
def createRecipeIngredient (db : DB) (ri : RecipeIngredientRow) : Option DB :=
  if recipeIngredientFieldsValid ri &&
      positiveSmallIntegerFieldOk ri.amount &&
      db.recipeIngredients.all (fun x =>
        x.id != ri.id &&
        !(x.recipe == ri.recipe && x.ingredient == ri.ingredient)) then
    some { db with recipeIngredients := ri :: db.recipeIngredients }
  else none

/-- Creation of a RecipeTag row.  RecipeTag.Meta declares no
    constraints: the UniqueConstraint naming fields user and recipe is a
    plain class attribute outside Meta (and RecipeTag has no user
    field), so the framework applies no pair-uniqueness check. -/
def createRecipeTag (db : DB) (rt : RecipeTagRow) : Option DB :=
  if db.recipeTags.all (fun x => x.id != rt.id) then
    some { db with recipeTags := rt :: db.recipeTags }
  else none

/-- Creation of a Favorite row.  Favorite.Meta declares
    UniqueConstraint(fields=['user', 'recipe']), so the write is
    rejected when the (user, recipe) pair already occurs. -/
def createFavorite (db : DB) (f : FavoriteRow) : Option DB :=
  if db.favorites.all (fun x =>
      x.id != f.id && !(x.user == f.user && x.recipe == f.recipe)) then
    some { db with favorites := f :: db.favorites }
  else none

/-- Creation of a ShoppingCart row.  ShoppingCart.Meta declares no
    constraints: the UniqueConstraint on (user, recipe) is a plain class
    attribute outside Meta, so the framework applies no pair-uniqueness
    check and a duplicate pair is written. -/
def createShoppingCart (db : DB) (s : ShoppingCartRow) : Option DB :=
  if db.shoppingCarts.all (fun x => x.id != s.id) then
    some { db with shoppingCarts := s :: db.shoppingCarts }
  else none

/-- Deletion of a Recipe row.  Every foreign key to Recipe in
    RecipeIngredient, RecipeTag, Favorite and ShoppingCart is declared
    with on_delete=models.CASCADE, so the rows referencing the deleted
    recipe are deleted with it. -/
def deleteRecipe (db : DB) (rid : Nat) : DB :=
  { db with
    recipes := db.recipes.filter (fun r => r.id != rid),
    recipeIngredients := db.recipeIngredients.filter (fun x => x.recipe != rid),
    recipeTags := db.recipeTags.filter (fun x => x.recipe != rid),
    favorites := db.favorites.filter (fun x => x.recipe != rid),
    shoppingCarts := db.shoppingCarts.filter (fun x => x.recipe != rid) }

/-- Database states reachable from the empty database through the
    creation and deletion operations of the data model. -/
inductive Reachable : DB → Prop
  | empty : Reachable emptyDB
  | recipe {db db' r} : Reachable db → createRecipe db r = some db' → Reachable db'
  | tag {db db' t} : Reachable db → createTag db t = some db' → Reachable db'
  | ingredient {db db' i} : Reachable db → createIngredient db i = some db' → Reachable db'
  | recipeIngredient {db db' ri} : Reachable db → createRecipeIngredient db ri = some db' → Reachable db'
  | recipeTag {db db' rt} : Reachable db → createRecipeTag db rt = some db' → Reachable db'
  | favorite {db db' f} : Reachable db → createFavorite db f = some db' → Reachable db'
  | shoppingCart {db db' s} : Reachable db → createShoppingCart db s = some db' → Reachable db'
  | delRecipe {db} (rid : Nat) : Reachable db → Reachable (deleteRecipe db rid)

/-- Declared field names of the RecipeTag model (plus the implicit id
    primary key): a recipe FK and a tag FK, and no user field. -/
def recipeTagFieldNames : List String := ["id", "recipe", "tag"]

/-- Field lists of the uniqueness constraints declared inside
    RecipeTag.Meta: there are none (the UniqueConstraint naming
    ('user', 'recipe') sits outside Meta as a plain class attribute). -/
def recipeTagMetaConstraints : List (List String) := []

/-- Field list named by the UniqueConstraint that RecipeTag declares as
    a plain class attribute outside Meta. -/
def recipeTagStrayConstraintFields : List String := ["user", "recipe"]

/-- Field lists of the uniqueness constraints declared inside
    ShoppingCart.Meta: there are none (the UniqueConstraint on
    ('user', 'recipe') sits outside Meta as a plain class attribute). -/
def shoppingCartMetaConstraints : List (List String) := []

/-- Field lists of the uniqueness constraints declared inside
    Favorite.Meta. -/
def favoriteMetaConstraints : List (List String) := [["user", "recipe"]]

/-- Recipe.Meta.ordering as declared in the source. -/
def recipeMetaOrdering : List String := ["-id"]

/-- Tag.Meta.ordering as declared in the source. -/
def tagMetaOrdering : List String := ["name"]

/-- Ingredient.Meta.ordering as declared in the source. -/
def ingredientMetaOrdering : List String := ["name"]

/-- Listing of the Recipe table under the declared default ordering
    ['-id']: rows sorted by descending id. -/
def listRecipes (db : DB) : List RecipeRow :=
  db.recipes.mergeSort (fun a b => decide (b.id ≤ a.id))

/-- Listing of the Tag table under the declared default ordering
    ('name',): rows sorted by ascending name. -/
def listTags (db : DB) : List TagRow :=
  db.tags.mergeSort (fun a b => decide (a.name ≤ b.name))

/-- Listing of the Ingredient table under the declared default ordering
    ('name',): rows sorted by ascending name. -/
def listIngredients (db : DB) : List IngredientRow :=
  db.ingredients.mergeSort (fun a b => decide (a.name ≤ b.name))

/-- Successful Recipe creation yields the inserted state and certifies
    the validation and write checks. -/
lemma createRecipe_some {db : DB} {r : RecipeRow} {db' : DB} :
    createRecipe db r = some db' →
    db' = { db with recipes := r :: db.recipes } ∧
      (recipeFieldsValid r && positiveSmallIntegerFieldOk r.cooking_time &&
        db.recipes.all (fun x => x.id != r.id)) = true := by
  unfold createRecipe
  split
  · intro h
    exact ⟨(Option.some_inj.mp h).symm, by assumption⟩
  · intro h
    cases h

/-- Successful Tag creation yields the inserted state and certifies the
    validation and uniqueness checks. -/
lemma createTag_some {db : DB} {t : TagRow} {db' : DB} :
    createTag db t = some db' →
    db' = { db with tags := t :: db.tags } ∧
      (tagFieldsValid t &&
        db.tags.all (fun x =>
          x.id != t.id && x.name != t.name && x.color != t.color &&
          x.slug != t.slug)) = true := by
  unfold createTag
  split
  · intro h
    exact ⟨(Option.some_inj.mp h).symm, by assumption⟩
  · intro h
    cases h

/-- Successful Ingredient creation yields the inserted state. -/
lemma createIngredient_some {db : DB} {i : IngredientRow} {db' : DB} :
    createIngredient db i = some db' →
    db' = { db with ingredients := i :: db.ingredients } := by
  unfold createIngredient
  split
  · intro h
    exact (Option.some_inj.mp h).symm
  · intro h
    cases h

/-- Successful RecipeIngredient creation yields the inserted state and
    certifies the validation and pair-uniqueness checks. -/
lemma createRecipeIngredient_some {db : DB} {ri : RecipeIngredientRow} {db' : DB} :
    createRecipeIngredient db ri = some db' →
    db' = { db with recipeIngredients := ri :: db.recipeIngredients } ∧
      (recipeIngredientFieldsValid ri &&
        positiveSmallIntegerFieldOk ri.amount &&
        db.recipeIngredients.all (fun x =>
          x.id != ri.id &&
          !(x.recipe == ri.recipe && x.ingredient == ri.ingredient))) = true := by
  unfold createRecipeIngredient
  split
  · intro h
    exact ⟨(Option.some_inj.mp h).symm, by assumption⟩
  · intro h
    cases h

/-- Successful RecipeTag creation yields the inserted state. -/
lemma createRecipeTag_some {db : DB} {rt : RecipeTagRow} {db' : DB} :
    createRecipeTag db rt = some db' →
    db' = { db with recipeTags := rt :: db.recipeTags } := by
  unfold createRecipeTag
  split
  · intro h
    exact (Option.some_inj.mp h).symm
  · intro h
    cases h

/-- Successful Favorite creation yields the inserted state and certifies
    the pair-uniqueness check. -/
lemma createFavorite_some {db : DB} {f : FavoriteRow} {db' : DB} :
    createFavorite db f = some db' →
    db' = { db with favorites := f :: db.favorites } ∧
      (db.favorites.all (fun x =>
        x.id != f.id && !(x.user == f.user && x.recipe == f.recipe))) = true := by
  unfold createFavorite
  split
  · intro h
    exact ⟨(Option.some_inj.mp h).symm, by assumption⟩
  · intro h
    cases h

/-- Successful ShoppingCart creation yields the inserted state. -/
lemma createShoppingCart_some {db : DB} {s : ShoppingCartRow} {db' : DB} :
    createShoppingCart db s = some db' →
    db' = { db with shoppingCarts := s :: db.shoppingCarts } := by
  unfold createShoppingCart
  split
  · intro h
    exact (Option.some_inj.mp h).symm
  · intro h
    cases h

/-- Global invariant of the data model: validator ranges hold for every
    persisted row, and each uniqueness constraint declared inside a
    class Meta (or as unique=True on a column) holds as pairwise
    distinctness of its table. -/
def DBInv (db : DB) : Prop :=
  (∀ r ∈ db.recipes, 1 ≤ r.cooking_time ∧ r.cooking_time ≤ 600 ∧
    r.text.length ≤ 1000) ∧
  (∀ t ∈ db.tags, regexHexColor t.color = true) ∧
  db.tags.Pairwise (fun a b => a.name ≠ b.name ∧ a.color ≠ b.color ∧ a.slug ≠ b.slug) ∧
  (∀ ri ∈ db.recipeIngredients, 1 ≤ ri.amount ∧ ri.amount ≤ 1000) ∧
  db.recipeIngredients.Pairwise
    (fun a b => ¬(a.recipe = b.recipe ∧ a.ingredient = b.ingredient)) ∧
  db.favorites.Pairwise (fun a b => ¬(a.user = b.user ∧ a.recipe = b.recipe))

/-- Every reachable database state satisfies the global invariant. -/
lemma reachable_inv {db : DB} (h : Reachable db) : DBInv db := by
  induction h with
  | empty =>
    simp [DBInv, emptyDB]
  | recipe h heq ih =>
    obtain ⟨hdb, hc⟩ := createRecipe_some heq
    subst hdb
    obtain ⟨h1, h2, h3, h4, h5, h6⟩ := ih
    simp only [recipeFieldsValid, minValueValidator, maxValueValidator,
      maxLengthValidator, positiveSmallIntegerFieldOk, Bool.and_eq_true,
      decide_eq_true_iff] at hc
    refine ⟨?_, h2, h3, h4, h5, h6⟩
    intro r hr
    rcases List.mem_cons.mp hr with he | hm
    · subst he
      exact ⟨hc.1.1.1.2, hc.1.1.2, hc.1.1.1.1.2⟩
    · exact h1 r hm
  | tag h heq ih =>
    obtain ⟨hdb, hc⟩ := createTag_some heq
    subst hdb
    obtain ⟨h1, h2, h3, h4, h5, h6⟩ := ih
    simp only [tagFieldsValid, Bool.and_eq_true, decide_eq_true_iff,
      List.all_eq_true, bne_iff_ne] at hc
    obtain ⟨hvalid, hall⟩ := hc
    refine ⟨h1, ?_, ?_, h4, h5, h6⟩
    · intro t' ht'
      rcases List.mem_cons.mp ht' with he | hm
      · subst he
        exact hvalid.1.1.2
      · exact h2 t' hm
    · refine List.pairwise_cons.mpr ⟨?_, h3⟩
      intro b hb
      obtain ⟨⟨⟨hid, hn⟩, hcol⟩, hs⟩ := hall b hb
      exact ⟨hn.symm, hcol.symm, hs.symm⟩
  | ingredient h heq ih =>
    have hdb := createIngredient_some heq
    subst hdb
    obtain ⟨h1, h2, h3, h4, h5, h6⟩ := ih
    exact ⟨h1, h2, h3, h4, h5, h6⟩
  | recipeIngredient h heq ih =>
    obtain ⟨hdb, hc⟩ := createRecipeIngredient_some heq
    subst hdb
    obtain ⟨h1, h2, h3, h4, h5, h6⟩ := ih
    simp only [recipeIngredientFieldsValid, minValueValidator, maxValueValidator,
      positiveSmallIntegerFieldOk, Bool.and_eq_true, decide_eq_true_iff,
      List.all_eq_true, bne_iff_ne, Bool.not_eq_true', Bool.and_eq_false_iff,
      beq_eq_false_iff_ne, ne_eq] at hc
    obtain ⟨⟨⟨hmin, hmax⟩, hpos⟩, hall⟩ := hc
    refine ⟨h1, h2, h3, ?_, ?_, h6⟩
    · intro x hx
      rcases List.mem_cons.mp hx with he | hm
      · subst he
        exact ⟨hmin, hmax⟩
      · exact h4 x hm
    · refine List.pairwise_cons.mpr ⟨?_, h5⟩
      intro b hb
      intro hcontra
      obtain ⟨hid, hpair⟩ := hall b hb
      rcases hpair with hrne | hine
      · exact hrne hcontra.1.symm
      · exact hine hcontra.2.symm
  | recipeTag h heq ih =>
    have hdb := createRecipeTag_some heq
    subst hdb
    obtain ⟨h1, h2, h3, h4, h5, h6⟩ := ih
    exact ⟨h1, h2, h3, h4, h5, h6⟩
  | favorite h heq ih =>
    obtain ⟨hdb, hc⟩ := createFavorite_some heq
    subst hdb
    obtain ⟨h1, h2, h3, h4, h5, h6⟩ := ih
    simp only [List.all_eq_true, Bool.and_eq_true, bne_iff_ne,
      Bool.not_eq_true', Bool.and_eq_false_iff, beq_eq_false_iff_ne, ne_eq] at hc
    refine ⟨h1, h2, h3, h4, h5, ?_⟩
    refine List.pairwise_cons.mpr ⟨?_, h6⟩
    intro b hb
    intro hcontra
    obtain ⟨hid, hpair⟩ := hc b hb
    rcases hpair with hune | hrne
    · exact hune hcontra.1.symm
    · exact hrne hcontra.2.symm
  | shoppingCart h heq ih =>
    have hdb := createShoppingCart_some heq
    subst hdb
    obtain ⟨h1, h2, h3, h4, h5, h6⟩ := ih
    exact ⟨h1, h2, h3, h4, h5, h6⟩
  | delRecipe rid h ih =>
    obtain ⟨h1, h2, h3, h4, h5, h6⟩ := ih
    simp only [DBInv, deleteRecipe]
    refine ⟨?_, h2, h3, ?_,
      List.Pairwise.filter _ h5, List.Pairwise.filter _ h6⟩
    · intro r hr
      exact h1 r (List.mem_of_mem_filter hr)
    · intro x hx
      exact h4 x (List.mem_of_mem_filter hx)

/-- Sample Recipe row with cooking_time = 600 and all other fields
    valid. -/
def recipeWith600 : RecipeRow := ⟨1, 1, "Soup", "recipes/soup.png", "Cook it", 600⟩

/-- Same row with cooking_time = 601. -/
def recipeWith601 : RecipeRow := { recipeWith600 with cooking_time := 601 }

/-- Database holding exactly the sample recipe. -/
def db600 : DB := { emptyDB with recipes := [recipeWith600] }

/-- Creating the sample recipe from the empty database succeeds. -/
lemma createRecipe_sample : createRecipe emptyDB recipeWith600 = some db600 := by
  decide

/-- The database holding the sample recipe is reachable. -/
lemma reachable_db600 : Reachable db600 :=
  Reachable.recipe Reachable.empty createRecipe_sample

/-- Sample Favorite row with user = 1 and recipe = 5. -/
def favRow15 : FavoriteRow := ⟨1, 1, 5⟩

/-- Database holding exactly the sample favorite. -/
def favDB1 : DB := { emptyDB with favorites := [favRow15] }

/-- Creating the sample favorite from the empty database succeeds. -/
lemma createFavorite_sample : createFavorite emptyDB favRow15 = some favDB1 := by
  decide

/-- The database holding the sample favorite is reachable. -/
lemma reachable_favDB1 : Reachable favDB1 :=
  Reachable.favorite Reachable.empty createFavorite_sample

/-- Sample RecipeIngredient row: recipe = 1, ingredient = 1, amount = 5. -/
def riRow : RecipeIngredientRow := ⟨1, 1, 1, 5⟩

/-- Database holding exactly the sample recipe-ingredient row. -/
def riDB1 : DB := { emptyDB with recipeIngredients := [riRow] }

/-- Creating the sample recipe-ingredient row from the empty database
    succeeds. -/
lemma createRecipeIngredient_sample :
    createRecipeIngredient emptyDB riRow = some riDB1 := by
  decide

/-- Sample Tag row with a well-formed hex color and slug. -/
def tagRow1 : TagRow := ⟨1, "Tea", "#aB3f09", "tea"⟩

/-- Database holding exactly the sample tag. -/
def tagDB1 : DB := { emptyDB with tags := [tagRow1] }

/-- Creating the sample tag from the empty database succeeds. -/
lemma createTag_sample : createTag emptyDB tagRow1 = some tagDB1 := by
  decide

/-- Database holding one RecipeTag row (recipe = 1, tag = 2). -/
def rtDB1 : DB := { emptyDB with recipeTags := [⟨1, 1, 2⟩] }

/-- Database holding two RecipeTag rows with the same (recipe, tag)
    pair. -/
def rtDB2 : DB := { emptyDB with recipeTags := [⟨2, 1, 2⟩, ⟨1, 1, 2⟩] }

/-- Database holding one ShoppingCart row (user = 1, recipe = 5). -/
def cartDB1 : DB := { emptyDB with shoppingCarts := [⟨1, 1, 5⟩] }

/-- Database holding two ShoppingCart rows with the same (user, recipe)
    pair. -/
def cartDB2 : DB := { emptyDB with shoppingCarts := [⟨2, 1, 5⟩, ⟨1, 1, 5⟩] }

/-- Database with join rows referencing recipe 1 and recipe 2, used to
    observe the cascade of deleteRecipe. -/
def cascDB : DB :=
  ⟨[], [], [],
   [⟨1, 1, 1, 5⟩, ⟨2, 2, 1, 5⟩],
   [⟨1, 1, 3⟩, ⟨2, 2, 3⟩],
   [⟨1, 7, 1⟩, ⟨2, 7, 2⟩],
   [⟨1, 7, 1⟩, ⟨2, 7, 2⟩]⟩

/-- C1: for every Recipe row of a reachable database state,
    cooking_time lies in [1, 600]; creating a Recipe whose cooking_time
    is 601 is rejected by validation for any database state; creating
    the sample recipe with cooking_time = 600 and all other fields
    valid succeeds. -/
theorem recipe_cooking_time_bounds :
    (∀ db : DB, Reachable db → ∀ r ∈ db.recipes,
      1 ≤ r.cooking_time ∧ r.cooking_time ≤ 600) ∧
    (∀ (db : DB) (r : RecipeRow), r.cooking_time = 601 →
      createRecipe db r = none) ∧
    createRecipe emptyDB recipeWith600 = some db600 := by
  refine ⟨?_, ?_, createRecipe_sample⟩
  · intro db h r hr
    obtain ⟨h1, _, _, _, _, _⟩ := reachable_inv h
    exact ⟨(h1 r hr).1, (h1 r hr).2.1⟩
  · intro db r h601
    unfold createRecipe recipeFieldsValid maxValueValidator
    rw [h601]
    simp

/-- Witness for C1 at concrete inputs: the sample recipe with
    cooking_time = 600 satisfies the bounds in the reachable state
    holding it, and the 601 variant is rejected from the empty
    database. -/
theorem recipe_cooking_time_bounds_witness :
    (1 ≤ recipeWith600.cooking_time ∧ recipeWith600.cooking_time ≤ 600) ∧
    createRecipe emptyDB recipeWith601 = none :=
  ⟨recipe_cooking_time_bounds.1 db600 reachable_db600 recipeWith600
      (by simp [db600]),
   recipe_cooking_time_bounds.2.1 emptyDB recipeWith601 rfl⟩

/-- C2: contrary to the claim, the ShoppingCart pair uniqueness is not
    enforced by the code: the UniqueConstraint on (user, recipe) is
    declared outside Meta, so Meta carries no constraints, and
    inserting a second ShoppingCart row with the same (user, recipe)
    pair as an existing row succeeds, leaving two such rows. -/
theorem shoppingCart_duplicate_pair_accepted :
    shoppingCartMetaConstraints = [] ∧
    createShoppingCart emptyDB ⟨1, 1, 5⟩ = some cartDB1 ∧
    createShoppingCart cartDB1 ⟨2, 1, 5⟩ = some cartDB2 ∧
    (cartDB2.shoppingCarts.filter
      (fun x => x.user == 1 && x.recipe == 5)).length = 2 := by
  decide

/-- C3: for every reachable database state each (user, recipe) pair
    occurs at most once in the Favorite table; creating Favorite
    (user=1, recipe=5) from the empty database succeeds and leaves
    exactly one such row; any further insert with the same (user,
    recipe) pair as a just-inserted row fails. -/
theorem favorite_unique_pair :
    (∀ db : DB, Reachable db →
      db.favorites.Pairwise (fun a b => ¬(a.user = b.user ∧ a.recipe = b.recipe))) ∧
    createFavorite emptyDB favRow15 = some favDB1 ∧
    (favDB1.favorites.filter (fun x => x.user == 1 && x.recipe == 5)).length = 1 ∧
    (∀ (db db' : DB) (f g : FavoriteRow), createFavorite db f = some db' →
      g.user = f.user → g.recipe = f.recipe → createFavorite db' g = none) := by
  refine ⟨?_, createFavorite_sample, by decide, ?_⟩
  · intro db h
    exact (reachable_inv h).2.2.2.2.2
  · intro db db' f g hf hu hr
    obtain ⟨hdb, _⟩ := createFavorite_some hf
    subst hdb
    unfold createFavorite
    rw [if_neg]
    simp [hu, hr]

/-- Witness for C3 at concrete inputs: the state holding Favorite
    (user=1, recipe=5) satisfies pair uniqueness, and inserting a
    second row with the same pair fails. -/
theorem favorite_unique_pair_witness :
    favDB1.favorites.Pairwise (fun a b => ¬(a.user = b.user ∧ a.recipe = b.recipe)) ∧
    createFavorite favDB1 ⟨2, 1, 5⟩ = none :=
  ⟨favorite_unique_pair.1 favDB1 reachable_favDB1,
   favorite_unique_pair.2.2.2 emptyDB favDB1 favRow15 ⟨2, 1, 5⟩
     createFavorite_sample rfl rfl⟩

/-- C4: deleting a Recipe row deletes every RecipeIngredient,
    RecipeTag, Favorite and ShoppingCart row whose recipe foreign key
    references it (and the recipe row itself), and every row
    referencing a different recipe survives unchanged. -/
theorem recipe_delete_cascades (db : DB) (rid : Nat) :
    (∀ x ∈ (deleteRecipe db rid).recipeIngredients, x.recipe ≠ rid) ∧
    (∀ x ∈ (deleteRecipe db rid).recipeTags, x.recipe ≠ rid) ∧
    (∀ x ∈ (deleteRecipe db rid).favorites, x.recipe ≠ rid) ∧
    (∀ x ∈ (deleteRecipe db rid).shoppingCarts, x.recipe ≠ rid) ∧
    (∀ r ∈ (deleteRecipe db rid).recipes, r.id ≠ rid) ∧
    (∀ x ∈ db.recipeIngredients, x.recipe ≠ rid →
      x ∈ (deleteRecipe db rid).recipeIngredients) ∧
    (∀ x ∈ db.recipeTags, x.recipe ≠ rid →
      x ∈ (deleteRecipe db rid).recipeTags) ∧
    (∀ x ∈ db.favorites, x.recipe ≠ rid →
      x ∈ (deleteRecipe db rid).favorites) ∧
    (∀ x ∈ db.shoppingCarts, x.recipe ≠ rid →
      x ∈ (deleteRecipe db rid).shoppingCarts) := by
  unfold deleteRecipe
  refine ⟨?_, ?_, ?_, ?_, ?_, ?_, ?_, ?_, ?_⟩ <;>
    simp only [List.mem_filter, bne_iff_ne]
  · exact fun x hx => hx.2
  · exact fun x hx => hx.2
  · exact fun x hx => hx.2
  · exact fun x hx => hx.2
  · exact fun r hr => hr.2
  · exact fun x hx hne => ⟨hx, hne⟩
  · exact fun x hx hne => ⟨hx, hne⟩
  · exact fun x hx hne => ⟨hx, hne⟩
  · exact fun x hx hne => ⟨hx, hne⟩

/-- Witness for C4 at a concrete database: after deleting recipe 1
    from cascDB, the join rows referencing recipe 2 survive in every
    table. -/
theorem recipe_delete_cascades_witness :
    (⟨2, 2, 1, 5⟩ : RecipeIngredientRow) ∈ (deleteRecipe cascDB 1).recipeIngredients ∧
    (⟨2, 2, 3⟩ : RecipeTagRow) ∈ (deleteRecipe cascDB 1).recipeTags ∧
    (⟨2, 7, 2⟩ : FavoriteRow) ∈ (deleteRecipe cascDB 1).favorites ∧
    (⟨2, 7, 2⟩ : ShoppingCartRow) ∈ (deleteRecipe cascDB 1).shoppingCarts :=
  ⟨(recipe_delete_cascades cascDB 1).2.2.2.2.2.1 ⟨2, 2, 1, 5⟩ (by decide) (by decide),
   (recipe_delete_cascades cascDB 1).2.2.2.2.2.2.1 ⟨2, 2, 3⟩ (by decide) (by decide),
   (recipe_delete_cascades cascDB 1).2.2.2.2.2.2.2.1 ⟨2, 7, 2⟩ (by decide) (by decide),
   (recipe_delete_cascades cascDB 1).2.2.2.2.2.2.2.2 ⟨2, 7, 2⟩ (by decide) (by decide)⟩

/-- C5: for every reachable database state, each (recipe, ingredient)
    pair occurs at most once in the RecipeIngredient table and every
    row satisfies 1 ≤ amount ≤ 1000; inserting a second row with the
    same (recipe, ingredient) pair as a just-inserted row is
    rejected. -/
theorem recipeIngredient_unique_pair_and_amount :
    (∀ db : DB, Reachable db →
      db.recipeIngredients.Pairwise
        (fun a b => ¬(a.recipe = b.recipe ∧ a.ingredient = b.ingredient)) ∧
      ∀ x ∈ db.recipeIngredients, 1 ≤ x.amount ∧ x.amount ≤ 1000) ∧
    (∀ (db db' : DB) (x y : RecipeIngredientRow),
      createRecipeIngredient db x = some db' →
      y.recipe = x.recipe → y.ingredient = x.ingredient →
      createRecipeIngredient db' y = none) := by
  constructor
  · intro db h
    obtain ⟨_, _, _, h4, h5, _⟩ := reachable_inv h
    exact ⟨h5, h4⟩
  · intro db db' x y hx hr hi
    obtain ⟨hdb, _⟩ := createRecipeIngredient_some hx
    subst hdb
    unfold createRecipeIngredient
    rw [if_neg]
    simp [hr, hi]

/-- Witness for C5 at concrete inputs: the reachable state holding the
    sample row satisfies both parts, and a second row with the same
    (recipe, ingredient) pair is rejected. -/
theorem recipeIngredient_unique_pair_and_amount_witness :
    (riDB1.recipeIngredients.Pairwise
      (fun a b => ¬(a.recipe = b.recipe ∧ a.ingredient = b.ingredient)) ∧
      ∀ x ∈ riDB1.recipeIngredients, 1 ≤ x.amount ∧ x.amount ≤ 1000) ∧
    createRecipeIngredient riDB1 ⟨2, 1, 1, 7⟩ = none :=
  ⟨recipeIngredient_unique_pair_and_amount.1 riDB1
     (Reachable.recipeIngredient Reachable.empty createRecipeIngredient_sample),
   recipeIngredient_unique_pair_and_amount.2 emptyDB riDB1 riRow ⟨2, 1, 1, 7⟩
     createRecipeIngredient_sample rfl rfl⟩

/-- C6: for every reachable database state, every Tag row's color
    matches the anchored pattern of the hex RegexValidator and no two
    Tag rows share a name, a color or a slug; inserting a tag that
    repeats the name, the color or the slug of a just-inserted tag is
    rejected. -/
theorem tag_color_format_and_uniqueness :
    (∀ db : DB, Reachable db →
      (∀ t ∈ db.tags, regexHexColor t.color = true) ∧
      db.tags.Pairwise
        (fun a b => a.name ≠ b.name ∧ a.color ≠ b.color ∧ a.slug ≠ b.slug)) ∧
    (∀ (db db' : DB) (t u : TagRow), createTag db t = some db' →
      (u.name = t.name ∨ u.color = t.color ∨ u.slug = t.slug) →
      createTag db' u = none) := by
  constructor
  · intro db h
    obtain ⟨_, h2, h3, _, _, _⟩ := reachable_inv h
    exact ⟨h2, h3⟩
  · intro db db' t u ht hdup
    obtain ⟨hdb, _⟩ := createTag_some ht
    subst hdb
    unfold createTag
    rw [if_neg]
    rcases hdup with h | h | h <;> simp [h]

/-- Witness for C6 at concrete inputs: the reachable state holding the
    sample tag satisfies both parts, and a tag repeating its color is
    rejected. -/
theorem tag_color_format_and_uniqueness_witness :
    ((∀ t ∈ tagDB1.tags, regexHexColor t.color = true) ∧
      tagDB1.tags.Pairwise
        (fun a b => a.name ≠ b.name ∧ a.color ≠ b.color ∧ a.slug ≠ b.slug)) ∧
    createTag tagDB1 ⟨2, "Mint", "#aB3f09", "mint"⟩ = none :=
  ⟨tag_color_format_and_uniqueness.1 tagDB1
     (Reachable.tag Reachable.empty createTag_sample),
   tag_color_format_and_uniqueness.2 emptyDB tagDB1 tagRow1
     ⟨2, "Mint", "#aB3f09", "mint"⟩ createTag_sample (Or.inr (Or.inl rfl))⟩

/-- C7: RecipeTag declares no user field, its stray UniqueConstraint
    names the fields user and recipe, its Meta carries no constraints,
    and no uniqueness is enforced on RecipeTag rows: two rows with the
    same (recipe, tag) pair are both accepted. -/
theorem recipeTag_constraint_unresolvable :
    ("user" ∉ recipeTagFieldNames) ∧
    recipeTagStrayConstraintFields = ["user", "recipe"] ∧
    recipeTagMetaConstraints = [] ∧
    createRecipeTag emptyDB ⟨1, 1, 2⟩ = some rtDB1 ∧
    createRecipeTag rtDB1 ⟨2, 1, 2⟩ = some rtDB2 ∧
    (rtDB2.recipeTags.filter (fun x => x.recipe == 1 && x.tag == 2)).length = 2 := by
  decide

/-- Oversized description used to exercise the text length validator. -/
def longText : String := String.mk (List.replicate 1001 'a')

/-- C8: creating a Recipe whose text exceeds 1000 characters is
    rejected at the data-entry boundary for any database state, and
    every Recipe row of a reachable database state has text of length
    at most 1000. -/
theorem recipe_text_length_bound :
    (∀ (db : DB) (r : RecipeRow), 1000 < r.text.length →
      createRecipe db r = none) ∧
    (∀ db : DB, Reachable db → ∀ r ∈ db.recipes, r.text.length ≤ 1000) := by
  constructor
  · intro db r hlen
    have hmax : maxLengthValidator 1000 r.text = false := by
      simp only [maxLengthValidator, decide_eq_false_iff_not]
      omega
    unfold createRecipe recipeFieldsValid
    rw [hmax]
    simp
  · intro db h r hr
    exact ((reachable_inv h).1 r hr).2.2

/-- Witness for C8 at concrete inputs: a recipe with a 1001-character
    description is rejected from the empty database, and the sample
    recipe in its reachable state has text within the bound. -/
theorem recipe_text_length_bound_witness :
    createRecipe emptyDB { recipeWith600 with text := longText } = none ∧
    recipeWith600.text.length ≤ 1000 :=
  ⟨recipe_text_length_bound.1 emptyDB { recipeWith600 with text := longText }
     (by
       show 1000 < longText.length
       have h : longText.length = (List.replicate 1001 'a').length := rfl
       rw [List.length_replicate] at h
       omega),
   recipe_text_length_bound.2 db600 reachable_db600 recipeWith600
     (by simp [db600])⟩

/-- C9: listing the Recipe table under its declared default ordering
    returns a permutation of the rows in descending id order, and
    listing the Tag and Ingredient tables returns permutations of
    their rows in ascending order of name. -/
theorem default_query_ordering (db : DB) :
    (listRecipes db).Perm db.recipes ∧
    (listRecipes db).Pairwise (fun a b => b.id ≤ a.id) ∧
    (listTags db).Perm db.tags ∧
    (listTags db).Pairwise (fun a b => a.name ≤ b.name) ∧
    (listIngredients db).Perm db.ingredients ∧
    (listIngredients db).Pairwise (fun a b => a.name ≤ b.name) := by
  refine ⟨List.mergeSort_perm _ _, ?_, List.mergeSort_perm _ _, ?_,
    List.mergeSort_perm _ _, ?_⟩
  · have hs : (listRecipes db).Pairwise
        (fun a b => decide (b.id ≤ a.id) = true) := by
      unfold listRecipes
      exact List.sorted_mergeSort
        (fun a b c hab hbc => by
          simp only [decide_eq_true_eq] at hab hbc ⊢
          omega)
        (fun a b => by
          simp only [Bool.or_eq_true, decide_eq_true_eq]
          omega)
        db.recipes
    exact hs.imp (fun h => decide_eq_true_eq.mp h)
  · have hs : (listTags db).Pairwise
        (fun a b => decide (a.name ≤ b.name) = true) := by
      unfold listTags
      exact List.sorted_mergeSort
        (fun a b c hab hbc => by
          simp only [decide_eq_true_eq] at hab hbc ⊢
          exact le_trans hab hbc)
        (fun a b => by
          simp only [Bool.or_eq_true, decide_eq_true_eq]
          exact le_total a.name b.name)
        db.tags
    exact hs.imp (fun h => decide_eq_true_eq.mp h)
  · have hs : (listIngredients db).Pairwise
        (fun a b => decide (a.name ≤ b.name) = true) := by
      unfold listIngredients
      exact List.sorted_mergeSort
        (fun a b c hab hbc => by
          simp only [decide_eq_true_eq] at hab hbc ⊢
          exact le_trans hab hbc)
        (fun a b => by
          simp only [Bool.or_eq_true, decide_eq_true_eq]
          exact le_total a.name b.name)
        db.ingredients
    exact hs.imp (fun h => decide_eq_true_eq.mp h)

/-- C10: any Recipe or RecipeIngredient write that succeeds carries a
    value the positive-small-integer column accepts, and on every
    reachable database state every persisted cooking_time and amount
    is a non-negative integer no greater than 32767. -/
theorem positive_small_integer_storage_bound :
    (∀ (db db' : DB) (r : RecipeRow), createRecipe db r = some db' →
      0 ≤ r.cooking_time ∧ r.cooking_time ≤ 32767) ∧
    (∀ (db db' : DB) (x : RecipeIngredientRow),
      createRecipeIngredient db x = some db' →
      0 ≤ x.amount ∧ x.amount ≤ 32767) ∧
    (∀ db : DB, Reachable db →
      (∀ r ∈ db.recipes, 0 ≤ r.cooking_time ∧ r.cooking_time ≤ 32767) ∧
      (∀ x ∈ db.recipeIngredients, 0 ≤ x.amount ∧ x.amount ≤ 32767)) := by
  refine ⟨?_, ?_, ?_⟩
  · intro db db' r h
    obtain ⟨_, hc⟩ := createRecipe_some h
    simp only [positiveSmallIntegerFieldOk, Bool.and_eq_true,
      decide_eq_true_iff] at hc
    exact hc.1.2
  · intro db db' x h
    obtain ⟨_, hc⟩ := createRecipeIngredient_some h
    simp only [positiveSmallIntegerFieldOk, Bool.and_eq_true,
      decide_eq_true_iff] at hc
    exact hc.1.2
  · intro db h
    obtain ⟨h1, _, _, h4, _, _⟩ := reachable_inv h
    constructor
    · intro r hr
      have := h1 r hr
      omega
    · intro x hx
      have := h4 x hx
      omega

/-- Witness for C10 at concrete inputs: the sample recipe and the
    sample recipe-ingredient row satisfy the storage bound. -/
theorem positive_small_integer_storage_bound_witness :
    (0 ≤ recipeWith600.cooking_time ∧ recipeWith600.cooking_time ≤ 32767) ∧
    (0 ≤ riRow.amount ∧ riRow.amount ≤ 32767) :=
  ⟨positive_small_integer_storage_bound.1 emptyDB db600 recipeWith600
     createRecipe_sample,
   positive_small_integer_storage_bound.2.1 emptyDB riDB1 riRow
     createRecipeIngredient_sample⟩
